import Mathlib

/-!
Shallow embedding of the ArcticDB write-path ingestion core
(`cpp/arcticdb/pipeline/frame_utils.hpp`): the type-tag dispatch of
`aggregator_set_data`, the variable-length string interning loop with its
sentinel offsets and string-encoding errors, `flatten_tensor`, and the
string sizing helper `get_max_string_size`.

Collaborators that live outside the sampled source (StringPool internals,
the Python value decoders `convert::py_unicode_to_buffer` /
`convert::pystring_to_buffer`, `util::FlattenHelper`, `TypedTensor`) are
modelled from the spec at the interface granularity the ingestion core
relies on; their definitions carry a `Modelled from the spec` note.
-/

set_option maxHeartbeats 1000000

namespace Arcticdb

/-- Modelled from the spec: the closed enumeration of type tags
("numeric kinds, boolean, fixed/variable string, empty"); the enum itself
(`entity::DataType`) is declared outside the sampled source. -/
inductive DataType where
  | uint8 | uint16 | uint32 | uint64
  | int8 | int16 | int32 | int64
  | float32 | float64
  | bool8
  | nanoseconds_utc64
  | ascii_fixed64 | ascii_dynamic64
  | utf_fixed64 | utf_dynamic64
  | empty_type
deriving Repr, DecidableEq

/-- Modelled from the spec: sequence (text) tags. -/
def is_sequence_type (dt : DataType) : Bool :=
  match dt with
  | .ascii_fixed64 | .ascii_dynamic64 | .utf_fixed64 | .utf_dynamic64 => true
  | _ => false

/-- Modelled from the spec: fixed-width string storage tags. -/
def is_fixed_string_type (dt : DataType) : Bool :=
  match dt with
  | .ascii_fixed64 | .utf_fixed64 => true
  | _ => false

/-- Modelled from the spec: UTF-flavored text tags. -/
def is_utf_type (dt : DataType) : Bool :=
  match dt with
  | .utf_fixed64 | .utf_dynamic64 => true
  | _ => false

/-- Modelled from the spec: numeric tags (integers, floats, timestamps). -/
def is_numeric_type (dt : DataType) : Bool :=
  match dt with
  | .uint8 | .uint16 | .uint32 | .uint64 => true
  | .int8 | .int16 | .int32 | .int64 => true
  | .float32 | .float64 | .nanoseconds_utc64 => true
  | _ => false

/-- Modelled from the spec: the boolean tag. -/
def is_bool_type (dt : DataType) : Bool :=
  match dt with
  | .bool8 => true
  | _ => false

/-- Modelled from the spec: floating-point tags. -/
def is_floating_point_type (dt : DataType) : Bool :=
  match dt with
  | .float32 | .float64 => true
  | _ => false

/-- Modelled from the spec: the empty placeholder tag. -/
def is_empty_type (dt : DataType) : Bool :=
  match dt with
  | .empty_type => true
  | _ => false

/-- Modelled from the spec: `sizeof` of a tag's raw type in bytes
(dynamic string tags store one 8-byte handle per row). -/
def sizeof_raw (dt : DataType) : Nat :=
  match dt with
  | .uint8 | .int8 | .bool8 => 1
  | .uint16 | .int16 => 2
  | .uint32 | .int32 | .float32 => 4
  | _ => 8

/-- Modelled from the spec: reserved sentinel token for an explicit
"no value" marker in a text slot; never collides with a pool offset. -/
def not_a_string : Nat := 18446744073709551615

/-- Modelled from the spec: reserved sentinel token for a floating
not-a-number marker occupying a text slot. -/
def nan_placeholder : Nat := 18446744073709551614

/-- Modelled from the spec: a deduplicating string pool; interned contents
in insertion order, offsets are positions in that order. -/
structure StringPool where
  strings : List (List Nat)
deriving Repr, DecidableEq

/-- Linear scan for already-interned content (byte-for-byte equality). -/
def find_offset : List (List Nat) → List Nat → Option Nat
  | [], _ => none
  | t :: ts, s => if t = s then some 0 else (find_offset ts s).map (· + 1)

/-- Modelled from the spec: `intern` — returns the existing token when the
content is already present, else stores the content and mints a new token. -/
def StringPool.get (pool : StringPool) (s : List Nat) : Nat × StringPool :=
  match find_offset pool.strings s with
  | some i => (i, pool)
  | none => (pool.strings.length, ⟨pool.strings ++ [s]⟩)

/-- Modelled from the spec: `resolve` — content stored at a (non-sentinel)
offset of the pool. -/
def get_string_from_pool (offset : Nat) (pool : StringPool) : List Nat :=
  pool.strings.getD offset []

/-- Modelled from the spec: read the stored offset token of one row of a
text column's offset buffer. -/
def get_offset_string_at (i : Nat) (src : List Nat) : Nat :=
  src.getD i 0

/-- `get_max_string_size` of `frame_utils.hpp` lines 34-47: scan the
`num_rows` rows starting at `offset` (the slice's first row within the
frame, `first_context_row`), skip both sentinel tokens, and take the
maximum pool-content length over the rest.  The slice bookkeeping that
computes `offset` and `num_rows` lives outside the sampled source, so they
are taken as parameters here. -/
def get_max_string_size (offset num_rows : Nat) (src : List Nat) (pool : StringPool) : Nat :=
  (List.range num_rows).foldl
    (fun max_length row =>
      let offset_val := get_offset_string_at (offset + row) src
      if offset_val = nan_placeholder ∨ offset_val = not_a_string then max_length
      else max max_length (get_string_from_pool offset_val pool).length)
    0

/-- A string-encoding error as produced by the decoders; the interning loop
overwrites `row_index_in_slice` with the slice-local row counter. -/
structure StringEncodingError where
  row_index_in_slice : Nat
deriving Repr, DecidableEq

/-- Modelled from the spec: one per-row handle of a variable-length text
column — the designated "no value" marker, the floating not-a-number
marker, or a decodable value carrying its bytes, whether its encoding is
well-formed, and whether it is plain ASCII/UTF-8 (needing no
runtime-level decoding). -/
inductive PyHandle where
  | py_none
  | py_nan
  | py_str (bytes : List Nat) (valid_encoding : Bool) (plain_ascii : Bool)
deriving Repr, DecidableEq

/-- Modelled from the spec: `convert::py_unicode_to_buffer` — UTF-8 decode
of a handle.  Acquires the embedding-runtime lock (second component of the
state) when the value is not plain ASCII/UTF-8; fails on malformed
encoding. -/
def py_unicode_to_buffer : PyHandle → Bool → Bool × Except StringEncodingError (List Nat)
  | .py_str bytes valid plain, gil =>
      (gil || !plain, if valid then .ok bytes else .error ⟨0⟩)
  | _, gil => (gil, .error ⟨0⟩)

/-- Modelled from the spec: `convert::pystring_to_buffer` — raw byte copy
of a handle's bytes; fails on a malformed handle; never touches the
embedding-runtime lock. -/
def pystring_to_buffer : PyHandle → Except StringEncodingError (List Nat)
  | .py_str bytes valid _ => if valid then .ok bytes else .error ⟨0⟩
  | _ => .error ⟨0⟩

/-- The `if constexpr (is_utf_type(slice_value_type(dt)))` decode choice of
`frame_utils.hpp` lines 150-154: UTF-8 decode for UTF-flavored tags, raw
byte copy otherwise.  Threads the runtime-lock state. -/
def decode_step (utf : Bool) (h : PyHandle) (gil : Bool) :
    Bool × Except StringEncodingError (List Nat) :=
  if utf then py_unicode_to_buffer h gil else (gil, pystring_to_buffer h)

/-- State produced by the variable-length string population loop: the
offset tokens written so far (in row order), the string pool after
interning, the runtime-lock state, and the error that aborted the loop,
if any. -/
structure VarStringResult where
  written : List Nat
  pool : StringPool
  gil : Bool
  error : Option StringEncodingError
deriving Repr, DecidableEq

/-- The per-row loop of `frame_utils.hpp` lines 144-168: for each handle in
source order, write `not_a_string` for the "no value" marker,
`nan_placeholder` for the not-a-number marker, otherwise decode, intern
into the pool and write the returned offset; on a decode failure stop and
return the error stamped with the slice-local row counter `s`. -/
def set_data_var_string_loop (utf : Bool) :
    List PyHandle → Nat → StringPool → Bool → VarStringResult
  | [], _, pool, gil => ⟨[], pool, gil, none⟩
  | PyHandle.py_none :: rest, s, pool, gil =>
      let r := set_data_var_string_loop utf rest (s + 1) pool gil
      ⟨not_a_string :: r.written, r.pool, r.gil, r.error⟩
  | PyHandle.py_nan :: rest, s, pool, gil =>
      let r := set_data_var_string_loop utf rest (s + 1) pool gil
      ⟨nan_placeholder :: r.written, r.pool, r.gil, r.error⟩
  | PyHandle.py_str bytes valid plain :: rest, s, pool, gil =>
      let step := decode_step utf (PyHandle.py_str bytes valid plain) gil
      match step.2 with
      | Except.ok decoded =>
          let got := pool.get decoded
          let r := set_data_var_string_loop utf rest (s + 1) got.2 step.1
          ⟨got.1 :: r.written, r.pool, r.gil, r.error⟩
      | Except.error e =>
          ⟨[], pool, step.1, some { e with row_index_in_slice := s }⟩

/-- A handle whose decode fails (malformed encoding), for either decoder. -/
def decode_fails : PyHandle → Bool
  | .py_str _ valid _ => !valid
  | _ => false

/-- A handle that requires runtime-level decoding (not plain ASCII/UTF-8),
i.e. whose decode acquires the embedding-runtime lock. -/
def needs_gil : PyHandle → Bool
  | .py_str _ _ plain => !plain
  | _ => false

/-- Index of the first handle whose decode fails, if any. -/
def first_fail_idx : List PyHandle → Option Nat
  | [] => none
  | h :: t => if decode_fails h then some 0 else (first_fail_idx t).map (· + 1)

/-- Number of handles the loop actually processes: everything up to and
including the first failing handle, or the whole list when none fails. -/
def rows_processed (handles : List PyHandle) : Nat :=
  match first_fail_idx handles with
  | some j => j + 1
  | none => handles.length

/-- Modelled from the spec: a freshly owned ChunkedBuffer — allocated byte
size plus the gathered contents. -/
structure ChunkedBuffer (α : Type) where
  byte_size : Nat
  content : List α
deriving Repr, DecidableEq

/-- Modelled from the spec: the `TypedTensor(tensor, slice_num,
regular_slice_size, rows_to_write)` view flattened by `util::FlattenHelper`
— the slice's `rows_to_write` elements gathered in row order, locating row
`s` by the view's stride from the slice's first row. -/
def typed_tensor_slice {α : Type} (view : Nat → α)
    (stride0 slice_num regular_slice_size rows_to_write : Nat) : List α :=
  (List.range rows_to_write).map
    (fun s => view ((slice_num * regular_slice_size + s) * stride0))

/-- `flatten_tensor` of `frame_utils.hpp` lines 77-91: presize a fresh
ChunkedBuffer of exactly `rows_to_write * sizeof(RawType)` bytes, flatten
the typed tensor slice into it, and return the new buffer (the source
returns a pointer to the new buffer's data, never the external memory).
The gather itself (`util::FlattenHelper`) is modelled from the spec. -/
def flatten_tensor {α : Type} (raw_size : Nat) (view : Nat → α)
    (stride0 rows_to_write slice_num regular_slice_size : Nat) : ChunkedBuffer α :=
  { byte_size := rows_to_write * raw_size
    content := typed_tensor_slice view stride0 slice_num regular_slice_size rows_to_write }

/-- Modelled from the spec: a TypedColumnView / NativeTensor — read-only
description of external column memory.  The three views reinterpret the
same external memory at a byte address, as the source does with casts:
`objects` as an array of per-row Python handles, `values` as raw numeric
elements, `chars` as raw bytes. -/
structure NativeTensor where
  data_type : DataType
  objects : Nat → PyHandle
  values : Nat → Int
  chars : Nat → Nat
  stride0 : Nat
  elsize : Nat

/-- Modelled from the spec: `util::is_cstyle_array<RawType>` — the view is
row-major contiguous for the raw type, i.e. its stride equals the raw
type's width. -/
def is_cstyle_array (raw_size : Nat) (t : NativeTensor) : Bool :=
  t.stride0 == raw_size

/-- `sizeof(PyObject*)`. -/
def ptr_size : Nat := 8

/-- The per-row handle array of the variable-length string branch
(`frame_utils.hpp` lines 127-131): when the view is C-style contiguous the
handles are read in place starting at element `row`; otherwise they are
first flattened via `flatten_tensor<PyObject*>`. -/
def var_string_handles (tensor : NativeTensor)
    (rows_to_write row slice_num regular_slice_size : Nat) : List PyHandle :=
  if is_cstyle_array ptr_size tensor then
    (List.range rows_to_write).map (fun s => tensor.objects ((row + s) * ptr_size))
  else
    (flatten_tensor ptr_size tensor.objects tensor.stride0
       rows_to_write slice_num regular_slice_size).content

/-- The fixed-width string branch (`frame_utils.hpp` lines 116-125): row
`s`'s characters are the `elsize` bytes starting at `(row + s) *
strides(0)`, written directly via `set_string_at`. -/
def fixed_string_rows (tensor : NativeTensor) (rows_to_write row : Nat) : List (List Nat) :=
  (List.range rows_to_write).map
    (fun s => (List.range tensor.elsize).map
      (fun k => tensor.chars ((row + s) * tensor.stride0 + k)))

/-- What `aggregator_set_data` handed to the destination column: fixed-width
character rows (`set_string_at`), interned-string offset tokens, a sparse
block (`set_sparse_block`), a borrowed external block (`set_external_block`,
zero copy: the column references the external memory at element `start`),
an owned flattened array (`set_array`), or nothing (empty tag). -/
inductive ColumnContent where
  | fixed_strings (rows : List (List Nat))
  | string_offsets (offs : List Nat)
  | sparse_block (start count : Nat)
  | external_block (start count : Nat)
  | owned_array (values : List Int)
  | none_written
deriving Repr, DecidableEq

/-- Outcome of one `aggregator_set_data` call: normal completion with the
column content, the segment string pool afterwards and the optional
string-encoding error; a failed `util::check`; or a reported usage error
(`util::raise_rte`). -/
inductive AggOutcome where
  | ok (content : ColumnContent) (pool : StringPool) (err : Option StringEncodingError)
  | check_failed (msg : String)
  | rte (msg : String)
deriving Repr, DecidableEq

/-- Message of the `util::check` at `frame_utils.hpp` line 109. -/
def type_mismatch_msg : String := "Type desc does not match tensor type"

/-- Message of the unreachable static exhaustiveness assertion at line 194. -/
def unknown_type_msg : String := "Unknown data type"

/-- Message of the `util::raise_rte` at line 176. -/
def sparse_only_floats_msg : String := "sparse currently supported for floating point columns only."

/-- `aggregator_set_data` of `frame_utils.hpp` lines 93-198.  `visit_tag`
resolves the static tag from `type_desc` itself, so the second
`util::check` (line 111) always passes and only the tensor/descriptor
comparison (line 109) can fail.  The dispatch is: sequence tags split into
fixed-width (direct `set_string_at`) and variable-length (interning loop);
numeric/bool tags split into sparse (floats only), zero-copy external
block for C-style views, and owned flattened array otherwise; the empty
tag writes nothing; any other tag would hit the static assertion. -/
def aggregator_set_data (type_desc : DataType) (tensor : NativeTensor) (pool : StringPool)
    (rows_to_write row slice_num regular_slice_size : Nat) (sparsify_floats : Bool) :
    AggOutcome :=
  let dt := type_desc
  if tensor.data_type ≠ type_desc then AggOutcome.check_failed type_mismatch_msg
  else
    let c_style := is_cstyle_array (sizeof_raw dt) tensor
    if is_sequence_type dt then
      if is_fixed_string_type dt then
        AggOutcome.ok
          (ColumnContent.fixed_strings (fixed_string_rows tensor rows_to_write row)) pool none
      else
        let handles := var_string_handles tensor rows_to_write row slice_num regular_slice_size
        let r := set_data_var_string_loop (is_utf_type dt) handles 0 pool false
        AggOutcome.ok (ColumnContent.string_offsets r.written) r.pool r.error
    else if is_numeric_type dt || is_bool_type dt then
      if sparsify_floats then
        if is_floating_point_type dt then
          AggOutcome.ok (ColumnContent.sparse_block row rows_to_write) pool none
        else AggOutcome.rte sparse_only_floats_msg
      else if c_style then
        AggOutcome.ok (ColumnContent.external_block row rows_to_write) pool none
      else
        AggOutcome.ok
          (ColumnContent.owned_array
            (typed_tensor_slice tensor.values tensor.stride0
              slice_num regular_slice_size rows_to_write)) pool none
    else if ¬ is_empty_type dt then AggOutcome.check_failed unknown_type_msg
    else AggOutcome.ok ColumnContent.none_written pool none

/-- Error of an outcome, when it completed normally. -/
def agg_error : AggOutcome → Option StringEncodingError
  | .ok _ _ e => e
  | _ => none

/-- Offset tokens written by a variable-length string outcome. -/
def agg_written : AggOutcome → List Nat
  | .ok (.string_offsets w) _ _ => w
  | _ => []

/-- Contents of the segment string pool after a completed call. -/
def agg_pool_strings : AggOutcome → List (List Nat)
  | .ok _ p _ => p.strings
  | _ => []

/-- Sample variable-length UTF column view holding the row sequence
"a", None, "bb", NaN, "a" (C-style, one 8-byte handle per row). -/
def round_trip_tensor : NativeTensor :=
  { data_type := DataType.utf_dynamic64
    objects := fun b =>
      if b = 0 then PyHandle.py_str [97] true true
      else if b = 8 then PyHandle.py_none
      else if b = 16 then PyHandle.py_str [98, 98] true true
      else if b = 24 then PyHandle.py_nan
      else PyHandle.py_str [97] true true
    values := fun _ => 0
    chars := fun _ => 0
    stride0 := 8
    elsize := 8 }

/-- Sample variable-length UTF column view whose rows 0-2 decode fine and
whose rows from 3 on hold malformed values. -/
def encoding_error_tensor : NativeTensor :=
  { data_type := DataType.utf_dynamic64
    objects := fun b =>
      if b < 24 then PyHandle.py_str [97] true true else PyHandle.py_str [98] false true
    values := fun _ => 0
    chars := fun _ => 0
    stride0 := 8
    elsize := 8 }

/-- Sample C-style float64 column view. -/
def float_tensor : NativeTensor :=
  { data_type := DataType.float64
    objects := fun _ => PyHandle.py_none
    values := fun b => Int.ofNat b
    chars := fun _ => 0
    stride0 := 8
    elsize := 8 }

/-- Sample C-style int64 column view. -/
def int_tensor : NativeTensor :=
  { data_type := DataType.int64
    objects := fun _ => PyHandle.py_none
    values := fun b => Int.ofNat b
    chars := fun _ => 0
    stride0 := 8
    elsize := 8 }

/-- Sample strided (non-C-style) int64 column view: 8-byte elements every
16 bytes. -/
def strided_int_tensor : NativeTensor :=
  { data_type := DataType.int64
    objects := fun _ => PyHandle.py_none
    values := fun b => Int.ofNat b
    chars := fun _ => 0
    stride0 := 16
    elsize := 8 }

/-- Sample fixed-width ASCII column view: 2-byte strings at stride 4. -/
def fixed_width_tensor : NativeTensor :=
  { data_type := DataType.ascii_fixed64
    objects := fun _ => PyHandle.py_none
    values := fun _ => 0
    chars := fun b => b % 256
    stride0 := 4
    elsize := 2 }

/-- Sample view for an empty-typed column. -/
def empty_tensor : NativeTensor :=
  { data_type := DataType.empty_type
    objects := fun _ => PyHandle.py_none
    values := fun _ => 0
    chars := fun _ => 0
    stride0 := 8
    elsize := 8 }

/-! ### Helper lemmas: lists, pool, loop unfolding -/

theorem getD_append_left {α : Type} (l t : List α) (i : Nat) (d : α) (h : i < l.length) :
    (l ++ t).getD i d = l.getD i d := by
  induction l generalizing i with
  | nil => exact absurd h (Nat.not_lt_zero i)
  | cons a l ih =>
    cases i with
    | zero => simp
    | succ i => simpa using ih i (Nat.lt_of_succ_lt_succ h)

theorem getD_append_length {α : Type} (l : List α) (x : α) (d : α) :
    (l ++ [x]).getD l.length d = x := by
  induction l with
  | nil => simp
  | cons a l ih => simp [ih]

theorem getD_map_range {α : Type} (f : Nat → α) (n i : Nat) (d : α) (h : i < n) :
    ((List.range n).map f).getD i d = f i := by
  have hlen : i < ((List.range n).map f).length := by simpa using h
  rw [List.getD_eq_getElem _ _ hlen]
  simp

theorem find_offset_lt {l : List (List Nat)} {s : List Nat} {i : Nat}
    (h : find_offset l s = some i) : i < l.length := by
  induction l generalizing i with
  | nil => simp [find_offset] at h
  | cons a l ih =>
    unfold find_offset at h
    split at h
    · simp at h
      simp
      omega
    · cases hf : find_offset l s with
      | none => rw [hf] at h; simp at h
      | some j =>
        rw [hf] at h
        simp at h
        subst h
        simpa using Nat.succ_lt_succ (ih hf)

theorem find_offset_getD {l : List (List Nat)} {s : List Nat} {i : Nat}
    (h : find_offset l s = some i) : l.getD i [] = s := by
  induction l generalizing i with
  | nil => simp [find_offset] at h
  | cons a l ih =>
    unfold find_offset at h
    split at h
    · simp at h
      subst h
      simpa using by assumption
    · cases hf : find_offset l s with
      | none => rw [hf] at h; simp at h
      | some j =>
        rw [hf] at h
        simp at h
        subst h
        simpa using ih hf

theorem StringPool.get_extends (pool : StringPool) (s : List Nat) :
    ∃ t, (pool.get s).2.strings = pool.strings ++ t := by
  unfold StringPool.get
  cases h : find_offset pool.strings s with
  | none => exact ⟨[s], rfl⟩
  | some i => exact ⟨[], by simp⟩

theorem StringPool.get_lt (pool : StringPool) (s : List Nat) :
    (pool.get s).1 < (pool.get s).2.strings.length := by
  unfold StringPool.get
  cases h : find_offset pool.strings s with
  | none => simp
  | some i => simpa using find_offset_lt h

theorem StringPool.get_resolves (pool : StringPool) (s : List Nat) :
    (pool.get s).2.strings.getD (pool.get s).1 [] = s := by
  unfold StringPool.get
  cases h : find_offset pool.strings s with
  | none => simp [getD_append_length pool.strings s []]
  | some i => simpa using find_offset_getD h

theorem loop_cons_str (utf : Bool) (bytes : List Nat) (valid plain : Bool)
    (rest : List PyHandle) (s : Nat) (pool : StringPool) (gil : Bool) :
    set_data_var_string_loop utf (PyHandle.py_str bytes valid plain :: rest) s pool gil =
      if valid then
        let gil2 := if utf then gil || !plain else gil
        let got := pool.get bytes
        let r := set_data_var_string_loop utf rest (s + 1) got.2 gil2
        ⟨got.1 :: r.written, r.pool, r.gil, r.error⟩
      else ⟨[], pool, (if utf then gil || !plain else gil), some ⟨s⟩⟩ := by
  cases utf <;> cases valid <;>
    simp [set_data_var_string_loop, decode_step, py_unicode_to_buffer, pystring_to_buffer]

theorem string_loop_no_fail (utf : Bool) (handles : List PyHandle) :
    ∀ (s : Nat) (pool : StringPool) (gil : Bool),
    (∀ k, k < handles.length → decode_fails (handles.getD k PyHandle.py_none) = false) →
    (set_data_var_string_loop utf handles s pool gil).error = none ∧
    (set_data_var_string_loop utf handles s pool gil).written.length = handles.length := by
  induction handles with
  | nil => intro s pool gil _; simp [set_data_var_string_loop]
  | cons h rest ih =>
    intro s pool gil hok
    have hrest : ∀ k, k < rest.length → decode_fails (rest.getD k PyHandle.py_none) = false := by
      intro k hk
      have := hok (k + 1) (by simpa using Nat.succ_lt_succ hk)
      simpa using this
    cases h with
    | py_none =>
      have := ih (s + 1) pool gil hrest
      simp [set_data_var_string_loop, this.1, this.2]
    | py_nan =>
      have := ih (s + 1) pool gil hrest
      simp [set_data_var_string_loop, this.1, this.2]
    | py_str bytes valid plain =>
      have hv : valid = true := by
        have h0 := hok 0 (by simp)
        simpa [decode_fails] using h0
      subst hv
      have := ih (s + 1) (pool.get bytes).2 (if utf then gil || !plain else gil) hrest
      rw [loop_cons_str]
      simp [this.1, this.2]

theorem string_loop_first_fail (utf : Bool) (handles : List PyHandle) :
    ∀ (s : Nat) (pool : StringPool) (gil : Bool) (j : Nat),
    j < handles.length →
    decode_fails (handles.getD j PyHandle.py_none) = true →
    (∀ k, k < j → decode_fails (handles.getD k PyHandle.py_none) = false) →
    (set_data_var_string_loop utf handles s pool gil).error = some ⟨s + j⟩ ∧
    (set_data_var_string_loop utf handles s pool gil).written.length = j := by
  induction handles with
  | nil => intro s pool gil j hj _ _; simp at hj
  | cons h rest ih =>
    intro s pool gil j hj hfail hbefore
    cases j with
    | zero =>
      cases h with
      | py_none => simp [decode_fails] at hfail
      | py_nan => simp [decode_fails] at hfail
      | py_str bytes valid plain =>
        have hv : valid = false := by simpa [decode_fails] using hfail
        subst hv
        rw [loop_cons_str]
        simp
    | succ j =>
      have h0 : decode_fails h = false := by
        have := hbefore 0 (Nat.succ_pos j)
        simpa using this
      have hj' : j < rest.length := by simpa using Nat.lt_of_succ_lt_succ hj
      have hfail' : decode_fails (rest.getD j PyHandle.py_none) = true := by
        simpa using hfail
      have hbefore' : ∀ k, k < j → decode_fails (rest.getD k PyHandle.py_none) = false := by
        intro k hk
        have := hbefore (k + 1) (Nat.succ_lt_succ hk)
        simpa using this
      have hs : s + 1 + j = s + (j + 1) := by omega
      cases h with
      | py_none =>
        have := ih (s + 1) pool gil j hj' hfail' hbefore'
        simp [set_data_var_string_loop, this.1, this.2, hs]
      | py_nan =>
        have := ih (s + 1) pool gil j hj' hfail' hbefore'
        simp [set_data_var_string_loop, this.1, this.2, hs]
      | py_str bytes valid plain =>
        have hv : valid = true := by simpa [decode_fails] using h0
        subst hv
        have := ih (s + 1) (pool.get bytes).2
          (if utf then gil || !plain else gil) j hj' hfail' hbefore'
        rw [loop_cons_str]
        simp [this.1, this.2, hs]

theorem string_loop_rows (utf : Bool) (handles : List PyHandle) :
    ∀ (s : Nat) (pool : StringPool) (gil : Bool),
    (set_data_var_string_loop utf handles s pool gil).error = none →
    (set_data_var_string_loop utf handles s pool gil).written.length = handles.length ∧
    (∃ t, (set_data_var_string_loop utf handles s pool gil).pool.strings
        = pool.strings ++ t) ∧
    ∀ i, i < handles.length →
      (handles.getD i PyHandle.py_none = PyHandle.py_none →
        (set_data_var_string_loop utf handles s pool gil).written.getD i 0 = not_a_string) ∧
      (handles.getD i PyHandle.py_none = PyHandle.py_nan →
        (set_data_var_string_loop utf handles s pool gil).written.getD i 0 = nan_placeholder) ∧
      (∀ bytes v p, handles.getD i PyHandle.py_none = PyHandle.py_str bytes v p →
        (set_data_var_string_loop utf handles s pool gil).pool.strings.getD
            ((set_data_var_string_loop utf handles s pool gil).written.getD i 0) []
          = bytes) := by
  induction handles with
  | nil =>
    intro s pool gil _
    refine ⟨by simp [set_data_var_string_loop], ⟨[], by simp [set_data_var_string_loop]⟩, ?_⟩
    intro i hi
    simp at hi
  | cons h rest ih =>
    intro s pool gil herr
    cases h with
    | py_none =>
      simp only [set_data_var_string_loop] at herr ⊢
      have IH := ih (s + 1) pool gil herr
      refine ⟨by simp [IH.1], IH.2.1, ?_⟩
      intro i hi
      cases i with
      | zero => refine ⟨fun _ => by simp, fun hc => by simp at hc, fun b v p hc => by simp at hc⟩
      | succ i =>
        have := IH.2.2 i (by simpa using Nat.lt_of_succ_lt_succ hi)
        simpa using this
    | py_nan =>
      simp only [set_data_var_string_loop] at herr ⊢
      have IH := ih (s + 1) pool gil herr
      refine ⟨by simp [IH.1], IH.2.1, ?_⟩
      intro i hi
      cases i with
      | zero => refine ⟨fun hc => by simp at hc, fun _ => by simp, fun b v p hc => by simp at hc⟩
      | succ i =>
        have := IH.2.2 i (by simpa using Nat.lt_of_succ_lt_succ hi)
        simpa using this
    | py_str bytes valid plain =>
      rw [loop_cons_str] at herr ⊢
      cases valid with
      | false => simp at herr
      | true =>
        simp only [if_pos] at herr ⊢
        have IH := ih (s + 1) (pool.get bytes).2 (if utf then gil || !plain else gil)
          (by simpa using herr)
        obtain ⟨t, ht⟩ := IH.2.1
        obtain ⟨t0, ht0⟩ := StringPool.get_extends pool bytes
        refine ⟨by simp [IH.1], ⟨t0 ++ t, by simp [ht, ht0, List.append_assoc]⟩, ?_⟩
        intro i hi
        cases i with
        | zero =>
          refine ⟨fun hc => by simp at hc, fun hc => by simp at hc, ?_⟩
          intro b v p hc
          simp at hc
          obtain ⟨hb, _, _⟩ := hc
          subst hb
          simp only [List.getD_cons_zero]
          rw [ht]
          rw [getD_append_left _ _ _ _ (StringPool.get_lt pool bytes)]
          exact StringPool.get_resolves pool bytes
        | succ i =>
          have := IH.2.2 i (by simpa using Nat.lt_of_succ_lt_succ hi)
          simpa using this

theorem rows_processed_cons_ok {h : PyHandle} (hf : decode_fails h = false)
    (t : List PyHandle) : rows_processed (h :: t) = rows_processed t + 1 := by
  have hcons : first_fail_idx (h :: t) = (first_fail_idx t).map (· + 1) := by
    simp [first_fail_idx, hf]
  unfold rows_processed
  rw [hcons]
  cases hft : first_fail_idx t <;> simp

theorem rows_processed_cons_fail {h : PyHandle} (hf : decode_fails h = true)
    (t : List PyHandle) : rows_processed (h :: t) = 1 := by
  simp [rows_processed, first_fail_idx, hf]

theorem var_string_handles_length (tensor : NativeTensor)
    (rows_to_write row slice_num regular_slice_size : Nat) :
    (var_string_handles tensor rows_to_write row slice_num regular_slice_size).length
      = rows_to_write := by
  unfold var_string_handles
  by_cases h : is_cstyle_array ptr_size tensor <;>
    simp [h, flatten_tensor, typed_tensor_slice]

theorem num_not_seq : ∀ dt : DataType,
    (is_numeric_type dt || is_bool_type dt) = true → is_sequence_type dt = false := by
  intro dt
  cases dt <;> decide

theorem fixed_is_seq : ∀ dt : DataType,
    is_fixed_string_type dt = true → is_sequence_type dt = true := by
  intro dt
  cases dt <;> decide

theorem empty_not_covered : ∀ dt : DataType, is_empty_type dt = true →
    is_sequence_type dt = false ∧ (is_numeric_type dt || is_bool_type dt) = false := by
  intro dt
  cases dt <;> decide

theorem tag_coverage : ∀ dt : DataType,
    is_sequence_type dt = true ∨ (is_numeric_type dt || is_bool_type dt) = true
      ∨ is_empty_type dt = true := by
  intro dt
  cases dt <;> decide

theorem msgs_differ : type_mismatch_msg ≠ unknown_type_msg := by decide

theorem agg_var_string_eq
    (dt : DataType) (tensor : NativeTensor) (pool : StringPool)
    (rows_to_write row slice_num regular_slice_size : Nat) (sp : Bool)
    (hseq : is_sequence_type dt = true) (hnf : is_fixed_string_type dt = false)
    (hty : tensor.data_type = dt) :
    aggregator_set_data dt tensor pool rows_to_write row slice_num regular_slice_size sp
      = AggOutcome.ok
          (ColumnContent.string_offsets
            (set_data_var_string_loop (is_utf_type dt)
              (var_string_handles tensor rows_to_write row slice_num regular_slice_size)
              0 pool false).written)
          (set_data_var_string_loop (is_utf_type dt)
            (var_string_handles tensor rows_to_write row slice_num regular_slice_size)
            0 pool false).pool
          (set_data_var_string_loop (is_utf_type dt)
            (var_string_handles tensor rows_to_write row slice_num regular_slice_size)
            0 pool false).error := by
  simp [aggregator_set_data, hty, hseq, hnf]

theorem get_max_string_size_foldl (offset : Nat) (src : List Nat) (pool : StringPool)
    (l : List Nat) :
    ∀ acc : Nat,
      l.foldl (fun max_length row =>
        let offset_val := get_offset_string_at (offset + row) src
        if offset_val = nan_placeholder ∨ offset_val = not_a_string then max_length
        else max max_length (get_string_from_pool offset_val pool).length) acc
      = max acc ((l.filterMap (fun row =>
          let offset_val := get_offset_string_at (offset + row) src
          if offset_val = nan_placeholder ∨ offset_val = not_a_string then none
          else some (get_string_from_pool offset_val pool).length)).foldr max 0) := by
  induction l with
  | nil => intro acc; simp
  | cons a t ih =>
    intro acc
    by_cases hc : get_offset_string_at (offset + a) src = nan_placeholder ∨
        get_offset_string_at (offset + a) src = not_a_string
    · simp only [List.foldl_cons, List.filterMap_cons]
      simp only [hc, if_pos hc, ite_true]
      rw [ih]
    · simp only [List.foldl_cons, List.filterMap_cons]
      simp only [if_neg hc]
      rw [ih]
      simp [Nat.max_assoc]

theorem agg_outcome_shapes (dt : DataType) (tensor : NativeTensor) (pool : StringPool)
    (rows_to_write row slice_num regular_slice_size : Nat) (sp : Bool) :
    (∃ cc p e, aggregator_set_data dt tensor pool rows_to_write row slice_num
        regular_slice_size sp = AggOutcome.ok cc p e)
    ∨ aggregator_set_data dt tensor pool rows_to_write row slice_num regular_slice_size sp
        = AggOutcome.rte sparse_only_floats_msg
    ∨ aggregator_set_data dt tensor pool rows_to_write row slice_num regular_slice_size sp
        = AggOutcome.check_failed type_mismatch_msg := by
  by_cases hty : tensor.data_type = dt
  · rcases tag_coverage dt with h | h | h
    · by_cases hf : is_fixed_string_type dt = true
      · exact Or.inl ⟨ColumnContent.fixed_strings (fixed_string_rows tensor rows_to_write row),
          pool, none, by simp [aggregator_set_data, hty, h, hf]⟩
      · have hnf : is_fixed_string_type dt = false := by simpa using hf
        exact Or.inl ⟨_, _, _,
          agg_var_string_eq dt tensor pool rows_to_write row slice_num regular_slice_size
            sp h hnf hty⟩
    · have hseq := num_not_seq dt h
      by_cases hsp : sp = true
      · by_cases hfp : is_floating_point_type dt = true
        · exact Or.inl ⟨ColumnContent.sparse_block row rows_to_write, pool, none,
            by simp [aggregator_set_data, hty, hseq, h, hsp, hfp]⟩
        · exact Or.inr (Or.inl (by simp [aggregator_set_data, hty, hseq, h, hsp, hfp]))
      · by_cases hcs : is_cstyle_array (sizeof_raw dt) tensor = true
        · exact Or.inl ⟨ColumnContent.external_block row rows_to_write, pool, none,
            by simp [aggregator_set_data, hty, hseq, h, hsp, hcs]⟩
        · exact Or.inl ⟨ColumnContent.owned_array
              (typed_tensor_slice tensor.values tensor.stride0 slice_num regular_slice_size
                rows_to_write), pool, none,
            by simp [aggregator_set_data, hty, hseq, h, hsp, hcs]⟩
    · have h1 := empty_not_covered dt h
      exact Or.inl ⟨ColumnContent.none_written, pool, none,
        by simp [aggregator_set_data, hty, h1.1, h1.2, h]⟩
  · exact Or.inr (Or.inr (by simp [aggregator_set_data, hty]))

/-! ### Claim theorems -/

/-- Claim C1: for a variable-length (interned) text column,
`aggregator_set_data` processes every row in source order: a "no value"
handle writes the reserved token `not_a_string` into that row's offset
slot, a floating not-a-number handle writes `nan_placeholder`, and any
other handle is decoded (UTF-8 decode for the UTF-flavored tag via
`py_unicode_to_buffer`, raw byte copy via `pystring_to_buffer` otherwise),
its bytes are interned into the segment's StringPool, and the offset
returned by the pool is written — witnessed here by the final pool
resolving each written offset back to the decoded bytes. -/
theorem var_string_rows_follow_handles
    (dt : DataType) (tensor : NativeTensor) (pool : StringPool)
    (rows_to_write row slice_num regular_slice_size : Nat) (sp : Bool)
    (hseq : is_sequence_type dt = true) (hnf : is_fixed_string_type dt = false)
    (hty : tensor.data_type = dt)
    (hnoerr : agg_error (aggregator_set_data dt tensor pool rows_to_write row
        slice_num regular_slice_size sp) = none) :
    (agg_written (aggregator_set_data dt tensor pool rows_to_write row
        slice_num regular_slice_size sp)).length = rows_to_write ∧
    ∀ i, i < rows_to_write →
      ((var_string_handles tensor rows_to_write row slice_num regular_slice_size).getD i
          PyHandle.py_none = PyHandle.py_none →
        (agg_written (aggregator_set_data dt tensor pool rows_to_write row
            slice_num regular_slice_size sp)).getD i 0 = not_a_string) ∧
      ((var_string_handles tensor rows_to_write row slice_num regular_slice_size).getD i
          PyHandle.py_none = PyHandle.py_nan →
        (agg_written (aggregator_set_data dt tensor pool rows_to_write row
            slice_num regular_slice_size sp)).getD i 0 = nan_placeholder) ∧
      (∀ bytes v p,
        (var_string_handles tensor rows_to_write row slice_num regular_slice_size).getD i
            PyHandle.py_none = PyHandle.py_str bytes v p →
        (agg_pool_strings (aggregator_set_data dt tensor pool rows_to_write row
            slice_num regular_slice_size sp)).getD
          ((agg_written (aggregator_set_data dt tensor pool rows_to_write row
              slice_num regular_slice_size sp)).getD i 0) [] = bytes) := by
  have hE := agg_var_string_eq dt tensor pool rows_to_write row slice_num regular_slice_size
    sp hseq hnf hty
  have hlen := var_string_handles_length tensor rows_to_write row slice_num regular_slice_size
  rw [hE] at hnoerr ⊢
  simp only [agg_error] at hnoerr
  simp only [agg_written, agg_pool_strings]
  have R := string_loop_rows (is_utf_type dt)
    (var_string_handles tensor rows_to_write row slice_num regular_slice_size)
    0 pool false hnoerr
  refine ⟨by rw [R.1, hlen], ?_⟩
  intro i hi
  exact R.2.2 i (by rw [hlen]; exact hi)

/-- Claim C1 witness: the round-trip rows "a", None, "bb", NaN, "a" — five
offsets are written and the offset written for row 2 resolves to "bb" in
the final pool. -/
theorem var_string_rows_follow_handles_witness :
    (agg_written (aggregator_set_data DataType.utf_dynamic64 round_trip_tensor ⟨[]⟩
        5 0 0 0 false)).length = 5
    ∧ (agg_pool_strings (aggregator_set_data DataType.utf_dynamic64 round_trip_tensor ⟨[]⟩
        5 0 0 0 false)).getD
        ((agg_written (aggregator_set_data DataType.utf_dynamic64 round_trip_tensor ⟨[]⟩
            5 0 0 0 false)).getD 2 0) [] = [98, 98] := by
  have H := var_string_rows_follow_handles DataType.utf_dynamic64 round_trip_tensor ⟨[]⟩
    5 0 0 0 false rfl rfl rfl (by decide)
  exact ⟨H.1, (H.2 2 (by decide)).2.2 [98, 98] true true (by decide)⟩

/-- Claim C2: when decoding the handle at slice-local row `j` of a
variable-length text column fails (and every earlier row is a sentinel or
decodes fine), `aggregator_set_data` stops there: exactly `j` offsets have
been written and the returned String Encoding Error carries row index `j`
— the position within the current write slice, counted from 0 regardless
of the `row` frame offset; when no row fails it returns the empty
optional. -/
theorem var_string_error_row_is_slice_local
    (dt : DataType) (tensor : NativeTensor) (pool : StringPool)
    (rows_to_write row slice_num regular_slice_size : Nat) (sp : Bool)
    (hseq : is_sequence_type dt = true) (hnf : is_fixed_string_type dt = false)
    (hty : tensor.data_type = dt) :
    (∀ j, j < rows_to_write →
      decode_fails ((var_string_handles tensor rows_to_write row slice_num
          regular_slice_size).getD j PyHandle.py_none) = true →
      (∀ k, k < j → decode_fails ((var_string_handles tensor rows_to_write row slice_num
          regular_slice_size).getD k PyHandle.py_none) = false) →
      agg_error (aggregator_set_data dt tensor pool rows_to_write row slice_num
          regular_slice_size sp) = some ⟨j⟩ ∧
      (agg_written (aggregator_set_data dt tensor pool rows_to_write row slice_num
          regular_slice_size sp)).length = j)
    ∧ ((∀ k, k < rows_to_write →
        decode_fails ((var_string_handles tensor rows_to_write row slice_num
            regular_slice_size).getD k PyHandle.py_none) = false) →
      agg_error (aggregator_set_data dt tensor pool rows_to_write row slice_num
          regular_slice_size sp) = none ∧
      (agg_written (aggregator_set_data dt tensor pool rows_to_write row slice_num
          regular_slice_size sp)).length = rows_to_write) := by
  have hE := agg_var_string_eq dt tensor pool rows_to_write row slice_num regular_slice_size
    sp hseq hnf hty
  have hlen := var_string_handles_length tensor rows_to_write row slice_num regular_slice_size
  constructor
  · intro j hj hfail hbefore
    have F := string_loop_first_fail (is_utf_type dt)
      (var_string_handles tensor rows_to_write row slice_num regular_slice_size)
      0 pool false j (by rw [hlen]; exact hj) hfail hbefore
    rw [hE]
    simp only [agg_error, agg_written]
    exact ⟨by rw [F.1]; simp, F.2⟩
  · intro hok
    have N := string_loop_no_fail (is_utf_type dt)
      (var_string_handles tensor rows_to_write row slice_num regular_slice_size)
      0 pool false (fun k hk => hok k (by rw [← hlen]; exact hk))
    rw [hE]
    simp only [agg_error, agg_written]
    exact ⟨N.1, by rw [N.2, hlen]⟩

/-- Claim C2 witness: rows 0-2 decode, row 3 is malformed, in a 10-row
slice write — the error's row index is 3 and exactly three offsets were
written. -/
theorem var_string_error_row_witness :
    agg_error (aggregator_set_data DataType.utf_dynamic64 encoding_error_tensor ⟨[]⟩
        10 0 0 0 false) = some ⟨3⟩
    ∧ (agg_written (aggregator_set_data DataType.utf_dynamic64 encoding_error_tensor ⟨[]⟩
        10 0 0 0 false)).length = 3 :=
  (var_string_error_row_is_slice_local DataType.utf_dynamic64 encoding_error_tensor ⟨[]⟩
      10 0 0 0 false rfl rfl rfl).1 3 (by decide) (by decide) (by decide)

/-- Claim C3: with `sparsify_floats` set, a floating-point destination tag
produces the sparse encoding via `set_sparse_block`, while any other
numeric or boolean tag raises the reported usage error
"sparse currently supported for floating point columns only." and writes
no data. -/
theorem sparsify_requires_floating
    (dt : DataType) (tensor : NativeTensor) (pool : StringPool)
    (rows_to_write row slice_num regular_slice_size : Nat)
    (hnum : (is_numeric_type dt || is_bool_type dt) = true)
    (hty : tensor.data_type = dt) :
    (is_floating_point_type dt = true →
      aggregator_set_data dt tensor pool rows_to_write row slice_num regular_slice_size true
        = AggOutcome.ok (ColumnContent.sparse_block row rows_to_write) pool none)
    ∧ (is_floating_point_type dt = false →
      aggregator_set_data dt tensor pool rows_to_write row slice_num regular_slice_size true
        = AggOutcome.rte sparse_only_floats_msg) := by
  have hseq := num_not_seq dt hnum
  constructor <;> intro hfp <;> simp [aggregator_set_data, hty, hseq, hnum, hfp]

/-- Claim C3 witness: sparsifying a float64 column produces a sparse block;
sparsifying an int64 column is the reported usage error. -/
theorem sparsify_requires_floating_witness :
    aggregator_set_data DataType.float64 float_tensor ⟨[]⟩ 4 0 0 0 true
        = AggOutcome.ok (ColumnContent.sparse_block 0 4) ⟨[]⟩ none
    ∧ aggregator_set_data DataType.int64 int_tensor ⟨[]⟩ 4 0 0 0 true
        = AggOutcome.rte sparse_only_floats_msg :=
  ⟨(sparsify_requires_floating DataType.float64 float_tensor ⟨[]⟩ 4 0 0 0 rfl rfl).1 rfl,
   (sparsify_requires_floating DataType.int64 int_tensor ⟨[]⟩ 4 0 0 0 rfl rfl).2 rfl⟩

/-- Claim C4: for a numeric or boolean column without `sparsify_floats`, a
C-style contiguous view is attached zero-copy as a non-owning external
block referencing the external memory at element `row` (no Flattener
allocation), while a non-contiguous view is flattened into a freshly
owned typed array holding the `rows_to_write` values gathered in source
row order by the view's stride, with no reference to the external
memory.  The string pool is untouched either way. -/
theorem numeric_zero_copy_or_flatten
    (dt : DataType) (tensor : NativeTensor) (pool : StringPool)
    (rows_to_write row slice_num regular_slice_size : Nat)
    (hnum : (is_numeric_type dt || is_bool_type dt) = true)
    (hty : tensor.data_type = dt) :
    (is_cstyle_array (sizeof_raw dt) tensor = true →
      aggregator_set_data dt tensor pool rows_to_write row slice_num regular_slice_size false
        = AggOutcome.ok (ColumnContent.external_block row rows_to_write) pool none)
    ∧ (is_cstyle_array (sizeof_raw dt) tensor = false →
      aggregator_set_data dt tensor pool rows_to_write row slice_num regular_slice_size false
          = AggOutcome.ok (ColumnContent.owned_array
              (typed_tensor_slice tensor.values tensor.stride0 slice_num regular_slice_size
                rows_to_write)) pool none
        ∧ (typed_tensor_slice tensor.values tensor.stride0 slice_num regular_slice_size
            rows_to_write).length = rows_to_write
        ∧ ∀ i, i < rows_to_write →
            (typed_tensor_slice tensor.values tensor.stride0 slice_num regular_slice_size
              rows_to_write).getD i 0
              = tensor.values ((slice_num * regular_slice_size + i) * tensor.stride0)) := by
  have hseq := num_not_seq dt hnum
  constructor <;> intro hcs
  · simp [aggregator_set_data, hty, hseq, hnum, hcs]
  · refine ⟨by simp [aggregator_set_data, hty, hseq, hnum, hcs], ?_, ?_⟩
    · simp [typed_tensor_slice]
    · intro i hi
      exact getD_map_range _ rows_to_write i 0 hi

/-- Claim C4 witness: a contiguous int64 view starting at row 2 is attached
as a borrowed external block; a stride-16 view is flattened into an owned
array whose element 1 is the source element at byte 16. -/
theorem numeric_zero_copy_or_flatten_witness :
    aggregator_set_data DataType.int64 int_tensor ⟨[]⟩ 4 2 0 0 false
        = AggOutcome.ok (ColumnContent.external_block 2 4) ⟨[]⟩ none
    ∧ aggregator_set_data DataType.int64 strided_int_tensor ⟨[]⟩ 3 0 0 0 false
        = AggOutcome.ok (ColumnContent.owned_array
            (typed_tensor_slice strided_int_tensor.values strided_int_tensor.stride0 0 0 3))
            ⟨[]⟩ none
    ∧ (typed_tensor_slice strided_int_tensor.values strided_int_tensor.stride0 0 0 3).getD 1 0
        = 16 := by
  refine ⟨(numeric_zero_copy_or_flatten DataType.int64 int_tensor ⟨[]⟩ 4 2 0 0 rfl rfl).1 rfl,
    ((numeric_zero_copy_or_flatten DataType.int64 strided_int_tensor ⟨[]⟩ 3 0 0 0
      rfl rfl).2 rfl).1, ?_⟩
  have h := ((numeric_zero_copy_or_flatten DataType.int64 strided_int_tensor ⟨[]⟩ 3 0 0 0
    rfl rfl).2 rfl).2.2 1 (by decide)
  exact h.trans (by decide)

/-- Claim C5: `flatten_tensor` allocates a fresh ChunkedBuffer of exactly
`rows_to_write * sizeof(RawType)` bytes and fills it with the view's
elements gathered in row order by the view's stride; the returned buffer
is the newly owned one (a value-holding `ChunkedBuffer`, not a reference
into the external memory), and the source view, being an input of this
pure function, is left unchanged. -/
theorem flatten_tensor_size_and_gather {α : Type} (raw_size : Nat) (view : Nat → α)
    (stride0 rows_to_write slice_num regular_slice_size : Nat) (d : α) :
    (flatten_tensor raw_size view stride0 rows_to_write slice_num
        regular_slice_size).byte_size = rows_to_write * raw_size
    ∧ (flatten_tensor raw_size view stride0 rows_to_write slice_num
        regular_slice_size).content.length = rows_to_write
    ∧ ∀ s, s < rows_to_write →
        (flatten_tensor raw_size view stride0 rows_to_write slice_num
            regular_slice_size).content.getD s d
          = view ((slice_num * regular_slice_size + s) * stride0) := by
  refine ⟨rfl, by simp [flatten_tensor, typed_tensor_slice], ?_⟩
  intro s hs
  exact getD_map_range _ rows_to_write s d hs

/-- Claim C5 witness: flattening 3 8-byte rows out of a stride-16 view
allocates 24 bytes and gathers element 2 from byte 32. -/
theorem flatten_tensor_size_and_gather_witness :
    (flatten_tensor 8 (fun b => b) 16 3 0 0).byte_size = 24
    ∧ (flatten_tensor 8 (fun b => b) 16 3 0 0).content.length = 3
    ∧ (flatten_tensor 8 (fun b => b) 16 3 0 0).content.getD 2 0 = 32 := by
  refine ⟨(flatten_tensor_size_and_gather 8 (fun b => b) 16 3 0 0 0).1,
    (flatten_tensor_size_and_gather 8 (fun b => b) 16 3 0 0 0).2.1, ?_⟩
  have h := (flatten_tensor_size_and_gather 8 (fun b => b) 16 3 0 0 0).2.2 2 (by decide)
  exact h.trans (by decide)

/-- Claim C6: `get_max_string_size` returns the maximum pool-content byte
length over the rows of the slice range, skipping every row whose stored
offset is one of the two reserved sentinels; in particular the row
sequence "a", `not_a_string`, "bb", `nan_placeholder`, "a" yields 2. -/
theorem max_string_size_skips_sentinels :
    (∀ (offset num_rows : Nat) (src : List Nat) (pool : StringPool),
      get_max_string_size offset num_rows src pool
        = ((List.range num_rows).filterMap (fun row =>
            let offset_val := get_offset_string_at (offset + row) src
            if offset_val = nan_placeholder ∨ offset_val = not_a_string then none
            else some (get_string_from_pool offset_val pool).length)).foldr max 0)
    ∧ get_max_string_size 0 5 [0, not_a_string, 1, nan_placeholder, 0]
        ⟨[[97], [98, 98]]⟩ = 2 := by
  constructor
  · intro offset num_rows src pool
    unfold get_max_string_size
    rw [get_max_string_size_foldl]
    simp
  · decide

/-- Claim C7: for a fixed-width string tag, `aggregator_set_data` writes
each of the `rows_to_write` rows' character data directly into the column
(`elsize` bytes for row `s`, located at source byte `(row + s) *
strides(0)`), and the segment's StringPool is returned untouched: no
interning or deduplication happens on this path. -/
theorem fixed_string_direct_write
    (dt : DataType) (tensor : NativeTensor) (pool : StringPool)
    (rows_to_write row slice_num regular_slice_size : Nat) (sp : Bool)
    (hfix : is_fixed_string_type dt = true)
    (hty : tensor.data_type = dt) :
    aggregator_set_data dt tensor pool rows_to_write row slice_num regular_slice_size sp
        = AggOutcome.ok
            (ColumnContent.fixed_strings (fixed_string_rows tensor rows_to_write row))
            pool none
    ∧ (fixed_string_rows tensor rows_to_write row).length = rows_to_write
    ∧ ∀ s, s < rows_to_write →
        (fixed_string_rows tensor rows_to_write row).getD s []
          = (List.range tensor.elsize).map
              (fun k => tensor.chars ((row + s) * tensor.stride0 + k)) := by
  have hseq := fixed_is_seq dt hfix
  refine ⟨by simp [aggregator_set_data, hty, hseq, hfix], by simp [fixed_string_rows], ?_⟩
  intro s hs
  exact getD_map_range _ rows_to_write s [] hs

/-- Claim C7 witness: three 2-byte rows at stride 4 starting at row 1; the
pool comes back unchanged and row 2 holds the bytes at offsets 12 and 13. -/
theorem fixed_string_direct_write_witness :
    aggregator_set_data DataType.ascii_fixed64 fixed_width_tensor ⟨[]⟩ 3 1 0 0 false
        = AggOutcome.ok
            (ColumnContent.fixed_strings (fixed_string_rows fixed_width_tensor 3 1)) ⟨[]⟩ none
    ∧ (fixed_string_rows fixed_width_tensor 3 1).getD 2 [] = [12, 13] := by
  refine ⟨(fixed_string_direct_write DataType.ascii_fixed64 fixed_width_tensor ⟨[]⟩
    3 1 0 0 false rfl rfl).1, ?_⟩
  have h := (fixed_string_direct_write DataType.ascii_fixed64 fixed_width_tensor ⟨[]⟩
    3 1 0 0 false rfl rfl).2.2 2 (by decide)
  exact h.trans (by decide)

/-- Claim C8: the type-tag dispatch is exhaustive over the closed set of
tags — every tag is a sequence tag, a numeric/boolean tag, or the empty
tag; the empty tag is a no-op that writes nothing and returns the empty
optional; and no input can reach the "Unknown data type" assertion
branch. -/
theorem dispatch_exhaustive :
    (∀ dt : DataType,
      is_sequence_type dt = true ∨ (is_numeric_type dt || is_bool_type dt) = true
        ∨ is_empty_type dt = true)
    ∧ (∀ (dt : DataType) (tensor : NativeTensor) (pool : StringPool)
        (rows_to_write row slice_num regular_slice_size : Nat) (sp : Bool),
        tensor.data_type = dt → is_empty_type dt = true →
        aggregator_set_data dt tensor pool rows_to_write row slice_num regular_slice_size sp
          = AggOutcome.ok ColumnContent.none_written pool none)
    ∧ (∀ (dt : DataType) (tensor : NativeTensor) (pool : StringPool)
        (rows_to_write row slice_num regular_slice_size : Nat) (sp : Bool),
        aggregator_set_data dt tensor pool rows_to_write row slice_num regular_slice_size sp
          ≠ AggOutcome.check_failed unknown_type_msg) := by
  refine ⟨tag_coverage, ?_, ?_⟩
  · intro dt tensor pool rows_to_write row slice_num regular_slice_size sp hty hemp
    have h1 := empty_not_covered dt hemp
    simp [aggregator_set_data, hty, h1.1, h1.2, hemp]
  · intro dt tensor pool rows_to_write row slice_num regular_slice_size sp
    rcases agg_outcome_shapes dt tensor pool rows_to_write row slice_num regular_slice_size sp
      with ⟨cc, p, e, h⟩ | h | h
    · rw [h]; intro hc; exact AggOutcome.noConfusion hc
    · rw [h]; intro hc; exact AggOutcome.noConfusion hc
    · rw [h]
      intro hc
      exact msgs_differ (AggOutcome.check_failed.inj hc)

/-- Claim C8 witness: the empty tag on a concrete call writes nothing,
leaves the pool as it was and returns the empty optional. -/
theorem dispatch_exhaustive_witness :
    aggregator_set_data DataType.empty_type empty_tensor ⟨[]⟩ 5 0 0 0 false
      = AggOutcome.ok ColumnContent.none_written ⟨[]⟩ none :=
  dispatch_exhaustive.2.1 DataType.empty_type empty_tensor ⟨[]⟩ 5 0 0 0 false rfl rfl

/-- Claim C9: during the population of a variable-length UTF text column
the embedding-runtime lock state after the loop equals the initial state
or-ed with "some processed handle needed runtime-level decoding".  Read at
every prefix of the handle list (the statement is universally quantified
over the list, and the loop consumes it left to right), this says the lock
is never held before the first row that is not plain ASCII/UTF-8 is
decoded, and — since `List.any` over a longer processed prefix only grows
and a true initial state stays true — once acquired it is held for the
remainder of the column. -/
theorem gil_lazy_then_held (handles : List PyHandle) :
    ∀ (s : Nat) (pool : StringPool) (g : Bool),
    (set_data_var_string_loop true handles s pool g).gil
      = (g || (handles.take (rows_processed handles)).any needs_gil) := by
  induction handles with
  | nil => intro s pool g; simp [set_data_var_string_loop, rows_processed, first_fail_idx]
  | cons h rest ih =>
    intro s pool g
    cases h with
    | py_none =>
      rw [rows_processed_cons_ok (by simp [decode_fails])]
      simp [set_data_var_string_loop, ih, needs_gil]
    | py_nan =>
      rw [rows_processed_cons_ok (by simp [decode_fails])]
      simp [set_data_var_string_loop, ih, needs_gil]
    | py_str bytes valid plain =>
      cases valid with
      | true =>
        rw [rows_processed_cons_ok (by simp [decode_fails])]
        rw [loop_cons_str]
        simp [ih, needs_gil, Bool.or_assoc]
      | false =>
        rw [rows_processed_cons_fail (by simp [decode_fails])]
        rw [loop_cons_str]
        simp [needs_gil]

/-- Claim C10: whenever the source tensor's data type differs from the
destination type descriptor's, `aggregator_set_data` fails the
`util::check` before dispatching to any data-writing path: the outcome is
the checked error, carrying no column content and no string pool — so
nothing is written and the pool cannot have grown.  (The check against the
statically resolved tag cannot fire, since `visit_tag` derives that tag
from the descriptor itself.) -/
theorem type_mismatch_checked
    (dt : DataType) (tensor : NativeTensor) (pool : StringPool)
    (rows_to_write row slice_num regular_slice_size : Nat) (sp : Bool)
    (h : tensor.data_type ≠ dt) :
    aggregator_set_data dt tensor pool rows_to_write row slice_num regular_slice_size sp
      = AggOutcome.check_failed type_mismatch_msg := by
  simp [aggregator_set_data, h]

/-- Claim C10 witness: writing a float64 tensor into an int64 descriptor is
the checked type-mismatch error. -/
theorem type_mismatch_checked_witness :
    aggregator_set_data DataType.int64 float_tensor ⟨[]⟩ 4 0 0 0 false
      = AggOutcome.check_failed type_mismatch_msg :=
  type_mismatch_checked DataType.int64 float_tensor ⟨[]⟩ 4 0 0 0 false (by decide)

end Arcticdb
